import Mathlib

/-
  Verification development for the dxvk-remix light-data core
  (src/dxvk/rtx_render/rtx_lights_data.cpp): the working light record,
  the dirty-bit merge engine, the legacy D3D9 light converter with its
  stable identity hash, and the transform sanitizer.

  Scalars are modelled as rationals.  External collaborators that the
  translation unit calls but whose code lives outside this repository
  snapshot (the xxHash function, the platform cosine, the intensity
  helper, the configurable conversion options, the shaping hash) are
  passed in as explicit parameters, so every theorem quantifies over
  them.
-/

namespace DxvkRtx

/-- Integer square root by bounded search (kernel-reducible, unlike the
well-founded `Nat.sqrt`): the largest `k ≤ n` with `k * k ≤ n`. -/
def natSqrt (n : Nat) : Nat :=
  ((List.range (n + 1)).filter fun k => k * k ≤ n).foldr max 0

/-- Rational stand-in for the 32-bit floating point square root used by the
USD vector library.  It is exact on rationals whose numerator and denominator
are perfect squares (every concrete input evaluated in this development) and
is nonnegative everywhere, like its floating-point counterpart. -/
def ratSqrt (q : ℚ) : ℚ :=
  if 0 ≤ q then (natSqrt q.num.toNat : ℚ) / (natSqrt q.den : ℚ) else 0

theorem ratSqrt_nonneg (q : ℚ) : 0 ≤ ratSqrt q := by
  unfold ratSqrt
  split
  · exact div_nonneg (Nat.cast_nonneg _) (Nat.cast_nonneg _)
  · exact le_refl 0

theorem ratSqrt_not_lt_zero (q : ℚ) : ¬ ratSqrt q < 0 :=
  not_lt.mpr (ratSqrt_nonneg q)

theorem ratSqrt_zero : ratSqrt 0 = 0 := by
  unfold ratSqrt
  norm_num [show natSqrt (Int.toNat 0) = 0 from rfl,
    show natSqrt 0 = 0 from rfl, show natSqrt 1 = 1 from rfl]

theorem ratSqrt_one : ratSqrt 1 = 1 := by
  unfold ratSqrt
  norm_num [show natSqrt (Int.toNat 1) = 1 from rfl,
    show natSqrt 1 = 1 from rfl]

theorem ratSqrt_four : ratSqrt 4 = 2 := by
  unfold ratSqrt
  norm_num [show natSqrt (Int.toNat 4) = 2 from rfl,
    show natSqrt 1 = 1 from rfl]

theorem ratSqrt_twentyfive : ratSqrt 25 = 5 := by
  unfold ratSqrt
  norm_num [show natSqrt (Int.toNat 25) = 5 from rfl,
    show natSqrt 1 = 1 from rfl]

/-- Three-component vector of rational scalars, modelling `dxvk::Vector3` and
`pxr::GfVec3f`. -/
structure Vector3 where
  x : ℚ
  y : ℚ
  z : ℚ
  deriving DecidableEq, Repr

def Vector3.zero : Vector3 := ⟨0, 0, 0⟩

def Vector3.neg (v : Vector3) : Vector3 := ⟨-v.x, -v.y, -v.z⟩

def Vector3.smul (q : ℚ) (v : Vector3) : Vector3 := ⟨q * v.x, q * v.y, q * v.z⟩

def Vector3.dot (a b : Vector3) : ℚ := a.x * b.x + a.y * b.y + a.z * b.z

/-- Modelled from the spec: `safeNormalize` is declared in a utility header
that is not part of this snapshot; per the spec it normalizes the direction
and "zero-vector falls back to a canonical axis" supplied by the caller. -/
def safeNormalize (v fallback : Vector3) : Vector3 :=
  if v = Vector3.zero then fallback else Vector3.smul (1 / ratSqrt (v.dot v)) v

/-- The working record's resolved light type (`LightData::LightType`). -/
inductive LightType where
  | Unknown
  | Sphere
  | Rect
  | Disk
  | Cylinder
  | Distant
  deriving DecidableEq, Repr

/-- Renderer-side light type tag (`RtLightType`). -/
inductive RtLightType where
  | Sphere
  | Rect
  | Disk
  | Cylinder
  | Distant
  deriving DecidableEq, Repr

/-- Modelled from the spec: the `RtLightType` enumeration is declared in a
renderer header that is not part of this snapshot; its enumerators carry the
C++ default numbering in declaration order.  The claims only use these values
as fixed shape-identity seed constants for the stable hash. -/
def RtLightType.val : RtLightType → Nat
  | .Sphere => 0
  | .Rect => 1
  | .Disk => 2
  | .Cylinder => 3
  | .Distant => 4

/-- D3D9 colour value (r, g, b components used by the converter). -/
structure ColorValue where
  r : ℚ
  g : ℚ
  b : ℚ
  deriving DecidableEq, Repr

/-- The legacy immediate-mode light call (`D3DLIGHT9`), restricted to the
fields the converter reads.  `type` carries the `D3DLIGHTTYPE` tag. -/
structure D3DLIGHT9 where
  type : Nat
  diffuse : ColorValue
  position : Vector3
  direction : Vector3
  range : ℚ
  falloff : ℚ
  theta : ℚ
  phi : ℚ
  deriving DecidableEq, Repr

/-- `D3DLIGHT_POINT` from d3d9types.h. -/
def D3DLIGHT_POINT : Nat := 1

/-- `D3DLIGHT_SPOT` from d3d9types.h. -/
def D3DLIGHT_SPOT : Nat := 2

/-- `D3DLIGHT_DIRECTIONAL` from d3d9types.h. -/
def D3DLIGHT_DIRECTIONAL : Nat := 3

/-- Modelled from the spec: the per-field dirty bitset.  The field list comes
from `LIST_LIGHT_CONSTANTS` in rtx_lights_data.h (not part of this snapshot);
the spec names the fields: radius, width/height, length, a distant-light
angle, cone angle, cone softness, focus, color, intensity, exposure,
color-temperature toggle, color temperature, plus the single `Transform` bit
owning the geometric bundle. -/
structure DirtyMask where
  Radius : Bool
  Width : Bool
  Height : Bool
  Length : Bool
  AngleRadians : Bool
  ConeAngleRadians : Bool
  ConeSoftness : Bool
  Focus : Bool
  Color : Bool
  Intensity : Bool
  Exposure : Bool
  EnableColorTemp : Bool
  ColorTemp : Bool
  Transform : Bool
  deriving DecidableEq, Repr

/-- The all-clear dirty mask (a freshly constructed record). -/
def DirtyMask.clear : DirtyMask :=
  ⟨false, false, false, false, false, false, false,
   false, false, false, false, false, false, false⟩

/-- `m_allDirty`: the bitset with every field bit set. -/
def allDirty : DirtyMask :=
  ⟨true, true, true, true, true, true, true,
   true, true, true, true, true, true, true⟩

/-- Renderer light-shaping structure (`RtLightShaping`), as constructed by
`LightData::getLightShaping`. -/
structure RtLightShaping where
  enabled : Bool
  primaryAxis : Vector3
  cosConeAngle : ℚ
  coneSoftness : ℚ
  focusExponent : ℚ
  deriving DecidableEq, Repr

/-- Value-initialized `RtLightShaping{}` (all members zero). -/
def RtLightShaping.default : RtLightShaping := ⟨false, Vector3.zero, 0, 0, 0⟩

/-- A byte buffer passed to `XXH64`: the converter hashes a raw `Vector3`, a
raw 32-bit float, or a previous 64-bit hash value. -/
inductive HashBuf where
  | vec3 (v : Vector3)
  | f32 (value : ℚ)
  | u64 (value : Nat)
  deriving DecidableEq, Repr

/-- The configurable conversion options read from `LightManager` /
`RtxOptions` (code outside this snapshot): the fixed sphere radius, the scene
scale, and the fixed distant-light angle and intensity. -/
structure ConversionOptions where
  sphereFixedRadius : ℚ
  sceneScale : ℚ
  distantFixedAngle : ℚ
  distantFixedIntensity : ℚ
  deriving DecidableEq, Repr

/-- The working light record (`dxvk::LightData`): the named scalar/vector
fields listed by the spec, the resolved light type, the dirty mask, the
provenance flags, the geometric bundle and the cached stable hash. -/
structure LightData where
  m_Radius : ℚ
  m_Width : ℚ
  m_Height : ℚ
  m_Length : ℚ
  m_AngleRadians : ℚ
  m_ConeAngleRadians : ℚ
  m_ConeSoftness : ℚ
  m_Focus : ℚ
  m_Color : Vector3
  m_Intensity : ℚ
  m_Exposure : ℚ
  m_EnableColorTemp : Bool
  m_ColorTemp : ℚ
  m_lightType : LightType
  m_dirty : DirtyMask
  m_isRelativeTransform : Bool
  m_isOverrideLight : Bool
  m_position : Vector3
  m_xAxis : Vector3
  m_yAxis : Vector3
  m_zAxis : Vector3
  m_xScale : ℚ
  m_yScale : ℚ
  m_zScale : ℚ
  m_cachedHash : Nat
  deriving DecidableEq, Repr

/-- Modelled from the spec: the default-constructed record.  The per-field
default values come from `LIST_LIGHT_CONSTANTS` in rtx_lights_data.h (not
part of this snapshot); the concrete values are immaterial to every claim
proved here, so zeros are used, with the light type `Unknown` and the dirty
mask clear as in the source constructor. -/
def LightData.default : LightData where
  m_Radius := 0
  m_Width := 0
  m_Height := 0
  m_Length := 0
  m_AngleRadians := 0
  m_ConeAngleRadians := 0
  m_ConeSoftness := 0
  m_Focus := 0
  m_Color := Vector3.zero
  m_Intensity := 0
  m_Exposure := 0
  m_EnableColorTemp := false
  m_ColorTemp := 0
  m_lightType := LightType.Unknown
  m_dirty := DirtyMask.clear
  m_isRelativeTransform := false
  m_isOverrideLight := false
  m_position := Vector3.zero
  m_xAxis := Vector3.zero
  m_yAxis := Vector3.zero
  m_zAxis := Vector3.zero
  m_xScale := 0
  m_yScale := 0
  m_zScale := 0
  m_cachedHash := 0

/-- Degrees-to-radians constant used by the source. -/
def kDegreesToRadians : ℚ := 3.14159265358979323846 / 180

/-- The frozen legacy stand-in radius hashed for Point/Spot lights. -/
def legacyStableRadius : ℚ := 4

/-- The frozen legacy stand-in half angle hashed for Directional lights. -/
def legacyStableHalfAngle : ℚ := 0.0349 / 2

/-- `LightData::isShapingEnabled`. -/
def LightData.isShapingEnabled (ld : LightData) : Bool :=
  decide (ld.m_ConeAngleRadians ≠ 180 * kDegreesToRadians) ||
  decide (ld.m_ConeSoftness ≠ 0) || decide (ld.m_Focus ≠ 0)

/-- `LightData::getLightShaping`, with the platform cosine passed in. -/
def LightData.getLightShaping (ld : LightData) (cosF : ℚ → ℚ)
    (zAxis : Vector3) : RtLightShaping where
  enabled := ld.isShapingEnabled
  primaryAxis := zAxis
  cosConeAngle := cosF ld.m_ConeAngleRadians
  coneSoftness := ld.m_ConeSoftness
  focusExponent := ld.m_Focus

/-- The peak diffuse channel `max(r, max(g, b))` computed by
`createFromPointSpot` (its `originalBrightness`). -/
def peakDiffuse (light : D3DLIGHT9) : ℚ :=
  max light.diffuse.r (max light.diffuse.g light.diffuse.b)

/-- `LightData::createFromDirectional`.  `xxh` models `XXH64` applied to the
given buffer and seed. -/
def createFromDirectional (xxh : HashBuf → Nat → Nat)
    (opts : ConversionOptions) (light : D3DLIGHT9) : LightData :=
  let originalDirection := light.direction
  { LightData.default with
      m_lightType := LightType.Distant
      m_zAxis := safeNormalize originalDirection ⟨0, 0, 1⟩
      m_AngleRadians := opts.distantFixedAngle
      m_Color := ⟨light.diffuse.r, light.diffuse.g, light.diffuse.b⟩
      m_Intensity := opts.distantFixedIntensity
      m_cachedHash :=
        xxh (HashBuf.f32 legacyStableHalfAngle)
          (xxh (HashBuf.vec3 originalDirection)
            (RtLightType.val RtLightType.Rect)) }

/-- `LightData::createFromPointSpot`.  `sh` models `RtLightShaping::getHash`,
`cosF` the platform cosine and `calc` the `LightUtils::calculateIntensity`
helper (all code outside this snapshot). -/
def createFromPointSpot (xxh : HashBuf → Nat → Nat)
    (sh : RtLightShaping → Nat) (cosF : ℚ → ℚ) (opts : ConversionOptions)
    (calcI : D3DLIGHT9 → ℚ → ℚ) (light : D3DLIGHT9) : LightData :=
  let originalPosition := light.position
  let originalBrightness := peakDiffuse light
  let radius := opts.sphereFixedRadius * opts.sceneScale
  let base : LightData :=
    { LightData.default with
        m_lightType := LightType.Sphere
        m_position := originalPosition
        m_Radius := radius
        m_Intensity := calcI light radius
        m_Color := ⟨light.diffuse.r / originalBrightness,
                    light.diffuse.g / originalBrightness,
                    light.diffuse.b / originalBrightness⟩ }
  let withSpot : LightData :=
    if light.type = D3DLIGHT_SPOT then
      { base with
          m_zAxis := safeNormalize light.direction ⟨0, 0, 1⟩
          m_ConeAngleRadians := light.phi / 2
          m_ConeSoftness := cosF (light.theta / 2) - cosF (light.phi / 2)
          m_Focus := light.falloff }
    else base
  let originalLightShaping : RtLightShaping :=
    if light.type = D3DLIGHT_SPOT then
      withSpot.getLightShaping cosF light.direction
    else RtLightShaping.default
  { withSpot with
      m_cachedHash :=
        xxh (HashBuf.u64
              (xxh (HashBuf.f32 legacyStableRadius)
                (xxh (HashBuf.vec3 originalPosition)
                  (RtLightType.val RtLightType.Sphere))))
          (sh originalLightShaping) }

/-- Whether `LightData::tryCreate(const D3DLIGHT9&)` takes its error-logging
branch (the `Logger::err` call on an out-of-range light type). -/
def tryCreateLogsError (light : D3DLIGHT9) : Bool :=
  decide (light.type < D3DLIGHT_POINT ∨ D3DLIGHT_DIRECTIONAL < light.type)

/-- `LightData::tryCreate(const D3DLIGHT9&)`: rejects an out-of-range type,
otherwise dispatches on the type tag (the switch's default case falls through
to the Point/Spot branch). -/
def tryCreateD3D9 (xxh : HashBuf → Nat → Nat) (sh : RtLightShaping → Nat)
    (cosF : ℚ → ℚ) (opts : ConversionOptions) (calcI : D3DLIGHT9 → ℚ → ℚ)
    (light : D3DLIGHT9) : Option LightData :=
  if light.type < D3DLIGHT_POINT ∨ D3DLIGHT_DIRECTIONAL < light.type then
    none
  else if light.type = D3DLIGHT_DIRECTIONAL then
    some (createFromDirectional xxh opts light)
  else
    some (createFromPointSpot xxh sh cosF opts calcI light)

/-- `LightData::merge(const LightData&)`: for every field whose dirty bit is
clear in the target, adopt the source's value; the geometric bundle is copied
as a unit keyed on the `Transform` bit; the mask, light type, provenance
flags and cached hash are untouched. -/
def LightData.mergeLD (t input : LightData) : LightData where
  m_Radius := cond t.m_dirty.Radius t.m_Radius input.m_Radius
  m_Width := cond t.m_dirty.Width t.m_Width input.m_Width
  m_Height := cond t.m_dirty.Height t.m_Height input.m_Height
  m_Length := cond t.m_dirty.Length t.m_Length input.m_Length
  m_AngleRadians := cond t.m_dirty.AngleRadians t.m_AngleRadians input.m_AngleRadians
  m_ConeAngleRadians := cond t.m_dirty.ConeAngleRadians t.m_ConeAngleRadians input.m_ConeAngleRadians
  m_ConeSoftness := cond t.m_dirty.ConeSoftness t.m_ConeSoftness input.m_ConeSoftness
  m_Focus := cond t.m_dirty.Focus t.m_Focus input.m_Focus
  m_Color := cond t.m_dirty.Color t.m_Color input.m_Color
  m_Intensity := cond t.m_dirty.Intensity t.m_Intensity input.m_Intensity
  m_Exposure := cond t.m_dirty.Exposure t.m_Exposure input.m_Exposure
  m_EnableColorTemp := cond t.m_dirty.EnableColorTemp t.m_EnableColorTemp input.m_EnableColorTemp
  m_ColorTemp := cond t.m_dirty.ColorTemp t.m_ColorTemp input.m_ColorTemp
  m_lightType := t.m_lightType
  m_dirty := t.m_dirty
  m_isRelativeTransform := t.m_isRelativeTransform
  m_isOverrideLight := t.m_isOverrideLight
  m_position := cond t.m_dirty.Transform t.m_position input.m_position
  m_xAxis := cond t.m_dirty.Transform t.m_xAxis input.m_xAxis
  m_yAxis := cond t.m_dirty.Transform t.m_yAxis input.m_yAxis
  m_zAxis := cond t.m_dirty.Transform t.m_zAxis input.m_zAxis
  m_xScale := cond t.m_dirty.Transform t.m_xScale input.m_xScale
  m_yScale := cond t.m_dirty.Transform t.m_yScale input.m_yScale
  m_zScale := cond t.m_dirty.Transform t.m_zScale input.m_zScale
  m_cachedHash := t.m_cachedHash

/-- The field-merging half of `LightData::merge(const D3DLIGHT9&)`: when the
target is not fully dirty, convert the call and merge the result in; a failed
conversion leaves the target untouched. -/
def LightData.mergeD3D9Fields (xxh : HashBuf → Nat → Nat)
    (sh : RtLightShaping → Nat) (cosF : ℚ → ℚ) (opts : ConversionOptions)
    (calcI : D3DLIGHT9 → ℚ → ℚ) (t : LightData) (light : D3DLIGHT9) :
    LightData :=
  if t.m_dirty ≠ allDirty then
    match tryCreateD3D9 xxh sh cosF opts calcI light with
    | some input => t.mergeLD input
    | none => t
  else t

/-- `LightData::merge(const D3DLIGHT9&)`: the field merge above, then the
light-type resolution switch (run unconditionally): an `Unknown` record takes
`Distant` for a directional call and `Sphere` for every other tag (the
default case falls through to the Point/Spot branch). -/
def LightData.mergeD3D9 (xxh : HashBuf → Nat → Nat)
    (sh : RtLightShaping → Nat) (cosF : ℚ → ℚ) (opts : ConversionOptions)
    (calcI : D3DLIGHT9 → ℚ → ℚ) (t : LightData) (light : D3DLIGHT9) :
    LightData :=
  let t1 := LightData.mergeD3D9Fields xxh sh cosF opts calcI t light
  if t1.m_lightType = LightType.Unknown then
    { t1 with
        m_lightType :=
          if light.type = D3DLIGHT_DIRECTIONAL then LightType.Distant
          else LightType.Sphere }
  else t1

/-- Row-major affine 4x4 transform (`pxr::GfMatrix4f`) restricted to the
parts the code reads: the three axis rows and the translation row.  The
fourth column is the affine `(0, 0, 0, 1)` asserted by the source. -/
structure GfMatrix4f where
  row0 : Vector3
  row1 : Vector3
  row2 : Vector3
  row3 : Vector3
  deriving DecidableEq, Repr

/-- `GF_MIN_VECTOR_LENGTH`, the epsilon of `GfVec3f::Normalize`. -/
def gfMinVectorLength : ℚ := 1 / 10000000000

/-- `pxr::GfVec3f::Normalize` (external USD library): returns the normalized
vector together with the pre-normalization length; when the length is not
above the epsilon the vector is divided by the epsilon instead (so a zero
vector stays zero). -/
def gfNormalize (v : Vector3) : Vector3 × ℚ :=
  let len := ratSqrt (v.dot v)
  (Vector3.smul (1 / (if gfMinVectorLength < len then len else gfMinVectorLength)) v, len)

/-- Modelled from the spec: `sanitizeSingularity` is declared in a utility
header that is not part of this snapshot; per the spec it replaces an axis
that normalized to the zero vector with the supplied canonical basis
vector. -/
def sanitizeSingularity (v fallback : Vector3) : Vector3 :=
  if v = Vector3.zero then fallback else v

/-- The zero-scale-transform guard of
`LightData::tryCreate(const pxr::UsdPrim&, ...)`: the light is accepted only
when none of the three scale *columns* of the matrix is exactly the zero
vector. -/
def usdTransformAccepted (m : GfMatrix4f) : Bool :=
  if (⟨m.row0.x, m.row1.x, m.row2.x⟩ : Vector3) = Vector3.zero
      ∨ (⟨m.row0.y, m.row1.y, m.row2.y⟩ : Vector3) = Vector3.zero
      ∨ (⟨m.row0.z, m.row1.z, m.row2.z⟩ : Vector3) = Vector3.zero then
    false
  else true

/-- `LightData::extractTransform`: normalize the three axis *rows* recording
their lengths as scales, substitute canonical basis vectors for degenerate
axes, negate the z axis for Sphere/Unknown records, flip any axis whose
recorded scale is negative while making the scale positive, and set the
`Transform` dirty bit. -/
def LightData.extractTransform (ld : LightData)
    (pLocalToRoot : Option GfMatrix4f) : LightData :=
  match pLocalToRoot with
  | none => ld
  | some m =>
    let nx := gfNormalize m.row0
    let ny := gfNormalize m.row1
    let nz := gfNormalize m.row2
    let xAxis0 := sanitizeSingularity nx.1 ⟨1, 0, 0⟩
    let yAxis0 := sanitizeSingularity ny.1 ⟨0, 1, 0⟩
    let zAxis0 := sanitizeSingularity nz.1 ⟨0, 0, 1⟩
    let zAxis1 :=
      if ld.m_lightType = LightType.Sphere ∨ ld.m_lightType = LightType.Unknown
      then zAxis0.neg else zAxis0
    { ld with
        m_position := m.row3
        m_xAxis := if nx.2 < 0 then xAxis0.neg else xAxis0
        m_yAxis := if ny.2 < 0 then yAxis0.neg else yAxis0
        m_zAxis := if nz.2 < 0 then zAxis1.neg else zAxis1
        m_xScale := if nx.2 < 0 then -nx.2 else nx.2
        m_yScale := if ny.2 < 0 then -ny.2 else ny.2
        m_zScale := if nz.2 < 0 then -nz.2 else nz.2
        m_dirty := { ld.m_dirty with Transform := true } }

/-- The same extraction with the negative-scale flip step removed: the
"unflipped computation" that claim C5 compares against. -/
def LightData.extractTransformNoFlip (ld : LightData)
    (pLocalToRoot : Option GfMatrix4f) : LightData :=
  match pLocalToRoot with
  | none => ld
  | some m =>
    let nx := gfNormalize m.row0
    let ny := gfNormalize m.row1
    let nz := gfNormalize m.row2
    let xAxis0 := sanitizeSingularity nx.1 ⟨1, 0, 0⟩
    let yAxis0 := sanitizeSingularity ny.1 ⟨0, 1, 0⟩
    let zAxis0 := sanitizeSingularity nz.1 ⟨0, 0, 1⟩
    let zAxis1 :=
      if ld.m_lightType = LightType.Sphere ∨ ld.m_lightType = LightType.Unknown
      then zAxis0.neg else zAxis0
    { ld with
        m_position := m.row3
        m_xAxis := xAxis0
        m_yAxis := yAxis0
        m_zAxis := zAxis1
        m_xScale := nx.2
        m_yScale := ny.2
        m_zScale := nz.2
        m_dirty := { ld.m_dirty with Transform := true } }

/-- Modelled from the spec: `isApproxNormalized` (utility header not in this
snapshot) holds when the vector's length is within the given tolerance of
one. -/
def isApproxNormalized (v : Vector3) (tolerance : ℚ) : Prop :=
  |ratSqrt (v.dot v) - 1| ≤ tolerance

/-- The conjunction asserted at the end of `LightData::extractTransform`:
all three axes approximately unit length (tolerance 0.01) and all three
scales strictly positive. -/
def extractAssertHolds (ld : LightData) : Prop :=
  isApproxNormalized ld.m_xAxis (1 / 100) ∧
  isApproxNormalized ld.m_yAxis (1 / 100) ∧
  isApproxNormalized ld.m_zAxis (1 / 100) ∧
  0 < ld.m_xScale ∧ 0 < ld.m_yScale ∧ 0 < ld.m_zScale

/-- Spec-side restatement of the Directional stable-hash contract: seed with
the fixed shape-identity constant used for Directional lights, fold the
unnormalized direction exactly as supplied by the call, then fold the frozen
legacy half-angle constant. -/
def specStableHashDirectional (xxh : HashBuf → Nat → Nat)
    (light : D3DLIGHT9) : Nat :=
  xxh (HashBuf.f32 legacyStableHalfAngle)
    (xxh (HashBuf.vec3 light.direction) (RtLightType.val RtLightType.Rect))

/-- Spec-side restatement of the stable shaping hashed for a legacy call: for
a Spot call its primary axis is the unnormalized direction exactly as
supplied; for a Point call it is the value-initialized shaping. -/
def specStableShapingPointSpot (cosF : ℚ → ℚ) (light : D3DLIGHT9) :
    RtLightShaping :=
  if light.type = D3DLIGHT_SPOT then
    { enabled :=
        decide (light.phi / 2 ≠ 180 * kDegreesToRadians) ||
        decide (cosF (light.theta / 2) - cosF (light.phi / 2) ≠ 0) ||
        decide (light.falloff ≠ 0)
      primaryAxis := light.direction
      cosConeAngle := cosF (light.phi / 2)
      coneSoftness := cosF (light.theta / 2) - cosF (light.phi / 2)
      focusExponent := light.falloff }
  else RtLightShaping.default

/-- Spec-side restatement of the Point/Spot stable-hash contract: seed with
the Sphere shape-identity constant, fold the unnormalized position exactly as
supplied by the call, fold the frozen legacy radius constant, then combine
with the stable shaping hash. -/
def specStableHashPointSpot (xxh : HashBuf → Nat → Nat)
    (sh : RtLightShaping → Nat) (cosF : ℚ → ℚ) (light : D3DLIGHT9) : Nat :=
  xxh (HashBuf.u64
        (xxh (HashBuf.f32 legacyStableRadius)
          (xxh (HashBuf.vec3 light.position)
            (RtLightType.val RtLightType.Sphere))))
    (sh (specStableShapingPointSpot cosF light))

/-- A concrete stand-in for `XXH64` used when instantiating theorems on
concrete inputs. -/
def xxh0 : HashBuf → Nat → Nat := fun _ h => h + 1

/-- A concrete stand-in for `RtLightShaping::getHash`. -/
def sh0 : RtLightShaping → Nat := fun _ => 0

/-- A concrete stand-in for the platform cosine. -/
def cos0 : ℚ → ℚ := fun _ => 1

/-- A concrete stand-in for `LightUtils::calculateIntensity`. -/
def calc0 : D3DLIGHT9 → ℚ → ℚ := fun _ _ => 1

/-- Concrete conversion options for instantiating theorems. -/
def opts0 : ConversionOptions := ⟨1, 1, 1, 1⟩

/-- A second set of conversion options, distinct from `opts0`. -/
def opts1 : ConversionOptions := ⟨7, 3, 5, 9⟩

/-- A second intensity helper, distinct from `calc0`. -/
def calc1 : D3DLIGHT9 → ℚ → ℚ := fun _ r => r * 2

/-- The Point light of claim C1's example: raw position (1, 2, 3), diffuse
(0.5, 0.5, 0.5). -/
def examplePointLight : D3DLIGHT9 where
  type := D3DLIGHT_POINT
  diffuse := ⟨1 / 2, 1 / 2, 1 / 2⟩
  position := ⟨1, 2, 3⟩
  direction := Vector3.zero
  range := 0
  falloff := 0
  theta := 0
  phi := 0

/-- C1: for fixed legacy-call inputs the stable identity hash computed by
`createFromPointSpot` and `createFromDirectional` is a pure function of the
call and the frozen in-code constants: it is unchanged under any values of
the configurable conversion options (fixed radius, fixed intensity, scene
scale) and any intensity-derivation helper; in particular the Point light at
raw position (1,2,3) with diffuse (0.5,0.5,0.5) hashes identically for any
value of the radius-conversion constant. -/
theorem stableHash_independent_of_conversionOptions
    (xxh : HashBuf → Nat → Nat) (sh : RtLightShaping → Nat) (cosF : ℚ → ℚ)
    (optsA optsB : ConversionOptions) (calcA calcB : D3DLIGHT9 → ℚ → ℚ)
    (light : D3DLIGHT9) :
    (createFromPointSpot xxh sh cosF optsA calcA light).m_cachedHash =
      (createFromPointSpot xxh sh cosF optsB calcB light).m_cachedHash ∧
    (createFromDirectional xxh optsA light).m_cachedHash =
      (createFromDirectional xxh optsB light).m_cachedHash ∧
    (createFromPointSpot xxh sh cosF optsA calcA examplePointLight).m_cachedHash =
      (createFromPointSpot xxh sh cosF optsB calcB examplePointLight).m_cachedHash := by
  have hps : ∀ l : D3DLIGHT9,
      (createFromPointSpot xxh sh cosF optsA calcA l).m_cachedHash =
        (createFromPointSpot xxh sh cosF optsB calcB l).m_cachedHash := by
    intro l
    by_cases h2 : l.type = D3DLIGHT_SPOT <;>
      simp [createFromPointSpot, LightData.getLightShaping,
        LightData.isShapingEnabled, h2]
  exact ⟨hps light, rfl, hps examplePointLight⟩

/-- C2: each supported legacy shape computes its stable hash by seeding with
the fixed shape-identity constant used for that shape, then folding, in a
fixed sequence, the unnormalized original direction (Directional) or
unnormalized original position (Point/Spot) exactly as supplied by the call
(never the sanitized value), followed by the frozen legacy constant (the
stand-in radius 4.0 for Point/Spot, the stand-in half-angle 0.0349/2 for
Directional); the Point/Spot hash is finally combined with the stable
shaping hash whose primary axis is again the unnormalized direction. -/
theorem stableHash_fold_sequence
    (xxh : HashBuf → Nat → Nat) (sh : RtLightShaping → Nat) (cosF : ℚ → ℚ)
    (opts : ConversionOptions) (calcA : D3DLIGHT9 → ℚ → ℚ)
    (light : D3DLIGHT9) :
    (createFromDirectional xxh opts light).m_cachedHash =
      specStableHashDirectional xxh light ∧
    (createFromPointSpot xxh sh cosF opts calcA light).m_cachedHash =
      specStableHashPointSpot xxh sh cosF light := by
  constructor
  · rfl
  · by_cases h2 : light.type = D3DLIGHT_SPOT <;>
      simp [createFromPointSpot, specStableHashPointSpot,
        specStableShapingPointSpot, LightData.getLightShaping,
        LightData.isShapingEnabled, h2]

/-- C3: for every pair of working records and every named field,
`merge(target, source)` leaves the field at the target's value when the
target's dirty bit for it is set and adopts the source's value when it is
clear; the dirty mask itself is never modified (so a clear bit stays clear);
and the geometric bundle is copied all-or-nothing keyed on the single
`Transform` bit. -/
theorem merge_gap_filling (t s : LightData) :
    (t.mergeLD s).m_dirty = t.m_dirty ∧
    ((t.m_dirty.Radius = true → (t.mergeLD s).m_Radius = t.m_Radius) ∧
     (t.m_dirty.Radius = false → (t.mergeLD s).m_Radius = s.m_Radius)) ∧
    ((t.m_dirty.Width = true → (t.mergeLD s).m_Width = t.m_Width) ∧
     (t.m_dirty.Width = false → (t.mergeLD s).m_Width = s.m_Width)) ∧
    ((t.m_dirty.Height = true → (t.mergeLD s).m_Height = t.m_Height) ∧
     (t.m_dirty.Height = false → (t.mergeLD s).m_Height = s.m_Height)) ∧
    ((t.m_dirty.Length = true → (t.mergeLD s).m_Length = t.m_Length) ∧
     (t.m_dirty.Length = false → (t.mergeLD s).m_Length = s.m_Length)) ∧
    ((t.m_dirty.AngleRadians = true →
        (t.mergeLD s).m_AngleRadians = t.m_AngleRadians) ∧
     (t.m_dirty.AngleRadians = false →
        (t.mergeLD s).m_AngleRadians = s.m_AngleRadians)) ∧
    ((t.m_dirty.ConeAngleRadians = true →
        (t.mergeLD s).m_ConeAngleRadians = t.m_ConeAngleRadians) ∧
     (t.m_dirty.ConeAngleRadians = false →
        (t.mergeLD s).m_ConeAngleRadians = s.m_ConeAngleRadians)) ∧
    ((t.m_dirty.ConeSoftness = true →
        (t.mergeLD s).m_ConeSoftness = t.m_ConeSoftness) ∧
     (t.m_dirty.ConeSoftness = false →
        (t.mergeLD s).m_ConeSoftness = s.m_ConeSoftness)) ∧
    ((t.m_dirty.Focus = true → (t.mergeLD s).m_Focus = t.m_Focus) ∧
     (t.m_dirty.Focus = false → (t.mergeLD s).m_Focus = s.m_Focus)) ∧
    ((t.m_dirty.Color = true → (t.mergeLD s).m_Color = t.m_Color) ∧
     (t.m_dirty.Color = false → (t.mergeLD s).m_Color = s.m_Color)) ∧
    ((t.m_dirty.Intensity = true →
        (t.mergeLD s).m_Intensity = t.m_Intensity) ∧
     (t.m_dirty.Intensity = false →
        (t.mergeLD s).m_Intensity = s.m_Intensity)) ∧
    ((t.m_dirty.Exposure = true → (t.mergeLD s).m_Exposure = t.m_Exposure) ∧
     (t.m_dirty.Exposure = false → (t.mergeLD s).m_Exposure = s.m_Exposure)) ∧
    ((t.m_dirty.EnableColorTemp = true →
        (t.mergeLD s).m_EnableColorTemp = t.m_EnableColorTemp) ∧
     (t.m_dirty.EnableColorTemp = false →
        (t.mergeLD s).m_EnableColorTemp = s.m_EnableColorTemp)) ∧
    ((t.m_dirty.ColorTemp = true →
        (t.mergeLD s).m_ColorTemp = t.m_ColorTemp) ∧
     (t.m_dirty.ColorTemp = false →
        (t.mergeLD s).m_ColorTemp = s.m_ColorTemp)) ∧
    ((t.m_dirty.Transform = true →
        (t.mergeLD s).m_position = t.m_position ∧
        (t.mergeLD s).m_xAxis = t.m_xAxis ∧
        (t.mergeLD s).m_yAxis = t.m_yAxis ∧
        (t.mergeLD s).m_zAxis = t.m_zAxis ∧
        (t.mergeLD s).m_xScale = t.m_xScale ∧
        (t.mergeLD s).m_yScale = t.m_yScale ∧
        (t.mergeLD s).m_zScale = t.m_zScale) ∧
     (t.m_dirty.Transform = false →
        (t.mergeLD s).m_position = s.m_position ∧
        (t.mergeLD s).m_xAxis = s.m_xAxis ∧
        (t.mergeLD s).m_yAxis = s.m_yAxis ∧
        (t.mergeLD s).m_zAxis = s.m_zAxis ∧
        (t.mergeLD s).m_xScale = s.m_xScale ∧
        (t.mergeLD s).m_yScale = s.m_yScale ∧
        (t.mergeLD s).m_zScale = s.m_zScale)) := by
  refine ⟨rfl, ⟨?_, ?_⟩, ⟨?_, ?_⟩, ⟨?_, ?_⟩, ⟨?_, ?_⟩, ⟨?_, ?_⟩, ⟨?_, ?_⟩,
    ⟨?_, ?_⟩, ⟨?_, ?_⟩, ⟨?_, ?_⟩, ⟨?_, ?_⟩, ⟨?_, ?_⟩, ⟨?_, ?_⟩, ⟨?_, ?_⟩,
    ⟨?_, ?_⟩⟩ <;>
  · intro h
    simp [LightData.mergeLD, h]

/-- A merge target for the C3 witness: only the radius bit set, transform
bit clear. -/
def c3Target : LightData :=
  { LightData.default with
      m_Radius := 5
      m_Width := 6
      m_dirty := { DirtyMask.clear with Radius := true } }

/-- A merge source for the C3 witness. -/
def c3Source : LightData :=
  { LightData.default with
      m_Radius := 11
      m_Width := 12
      m_position := ⟨9, 9, 9⟩ }

/-- Witness for C3 at a concrete target/source pair: the dirty radius keeps
the target's value, the clean width adopts the source's, the clean transform
bundle adopts the source's position, and the mask is unchanged. -/
theorem merge_gap_filling_witness :
    (c3Target.mergeLD c3Source).m_dirty = c3Target.m_dirty ∧
    (c3Target.mergeLD c3Source).m_Radius = c3Target.m_Radius ∧
    (c3Target.mergeLD c3Source).m_Width = c3Source.m_Width ∧
    (c3Target.mergeLD c3Source).m_position = c3Source.m_position := by
  obtain ⟨h1, h2, h3, -, -, -, -, -, -, -, -, -, -, -, h15⟩ :=
    merge_gap_filling c3Target c3Source
  exact ⟨h1, h2.1 rfl, h3.2 rfl, (h15.2 rfl).1⟩

/-- Helper: the field-merging half of `merge(const D3DLIGHT9&)` never
touches the light type. -/
theorem mergeD3D9Fields_lightType (xxh : HashBuf → Nat → Nat)
    (sh : RtLightShaping → Nat) (cosF : ℚ → ℚ) (opts : ConversionOptions)
    (calcI : D3DLIGHT9 → ℚ → ℚ) (t : LightData) (light : D3DLIGHT9) :
    (LightData.mergeD3D9Fields xxh sh cosF opts calcI t light).m_lightType =
      t.m_lightType := by
  unfold LightData.mergeD3D9Fields
  split
  · split <;> rfl
  · rfl

/-- C7: across the record-mutating operations (both merge overloads), the
light type only ever transitions from `Unknown` to a concrete type: the
record-merge overload never changes it, and the legacy-call overload either
leaves it unchanged or resolves an `Unknown` type to a concrete one. -/
theorem lightType_transitions_unknown_to_concrete
    (xxh : HashBuf → Nat → Nat) (sh : RtLightShaping → Nat) (cosF : ℚ → ℚ)
    (opts : ConversionOptions) (calcI : D3DLIGHT9 → ℚ → ℚ)
    (t s : LightData) (light : D3DLIGHT9) :
    (t.mergeLD s).m_lightType = t.m_lightType ∧
    ((LightData.mergeD3D9 xxh sh cosF opts calcI t light).m_lightType =
        t.m_lightType ∨
      (t.m_lightType = LightType.Unknown ∧
        (LightData.mergeD3D9 xxh sh cosF opts calcI t light).m_lightType ≠
          LightType.Unknown)) := by
  refine ⟨rfl, ?_⟩
  by_cases ht : t.m_lightType = LightType.Unknown
  · refine Or.inr ⟨ht, ?_⟩
    simp only [LightData.mergeD3D9,
      mergeD3D9Fields_lightType xxh sh cosF opts calcI t light, ht, if_pos]
    split <;> simp
  · refine Or.inl ?_
    simp [LightData.mergeD3D9,
      mergeD3D9Fields_lightType xxh sh cosF opts calcI t light, ht]

/-- C6 (amended): merging into a record whose dirty mask equals the all-set
mask leaves every field, the geometric bundle and the dirty mask unchanged —
the record-merge overload is a complete no-op — but the legacy-call overload
still runs its type-resolution switch, so the light type is unchanged only
when it is already concrete; an `Unknown` type is resolved to the call's
concrete type. -/
theorem merge_fully_defined_short_circuit
    (xxh : HashBuf → Nat → Nat) (sh : RtLightShaping → Nat) (cosF : ℚ → ℚ)
    (opts : ConversionOptions) (calcI : D3DLIGHT9 → ℚ → ℚ)
    (t s : LightData) (light : D3DLIGHT9) (h : t.m_dirty = allDirty) :
    t.mergeLD s = t ∧
    LightData.mergeD3D9 xxh sh cosF opts calcI t light =
      (if t.m_lightType = LightType.Unknown then
        { t with
            m_lightType :=
              if light.type = D3DLIGHT_DIRECTIONAL then LightType.Distant
              else LightType.Sphere }
      else t) := by
  constructor
  · obtain ⟨f1, f2, f3, f4, f5, f6, f7, f8, f9, f10, f11, f12, f13, lt, d,
      rf, ov, p, xa, ya, za, xs, ys, zs, ch⟩ := t
    replace h : d = allDirty := h
    subst h
    simp [LightData.mergeLD, allDirty]
  · simp [LightData.mergeD3D9, LightData.mergeD3D9Fields, h]

/-- Fully defined target with a concrete light type for the C6 witness. -/
def c6WTarget : LightData :=
  { LightData.default with
      m_Radius := 5
      m_lightType := LightType.Rect
      m_dirty := allDirty }

/-- A source record for the C6 witness. -/
def c6WSource : LightData :=
  { LightData.default with m_Radius := 9, m_position := ⟨4, 4, 4⟩ }

/-- A legacy Point call used by the C6 witness and counterexample. -/
def c6Light : D3DLIGHT9 where
  type := D3DLIGHT_POINT
  diffuse := ⟨1, 1, 1⟩
  position := ⟨2, 2, 2⟩
  direction := Vector3.zero
  range := 0
  falloff := 0
  theta := 0
  phi := 0

/-- Witness for C6 at a concrete fully defined target with a concrete light
type: both merge overloads leave the record untouched. -/
theorem merge_fully_defined_short_circuit_witness :
    c6WTarget.mergeLD c6WSource = c6WTarget ∧
    LightData.mergeD3D9 xxh0 sh0 cos0 opts0 calc0 c6WTarget c6Light =
      (if c6WTarget.m_lightType = LightType.Unknown then
        { c6WTarget with
            m_lightType :=
              if c6Light.type = D3DLIGHT_DIRECTIONAL then LightType.Distant
              else LightType.Sphere }
      else c6WTarget) :=
  merge_fully_defined_short_circuit xxh0 sh0 cos0 opts0 calc0 c6WTarget
    c6WSource c6Light rfl

/-- Fully defined target whose light type is still `Unknown`, for the C6
counterexample. -/
def c6CTarget : LightData := { LightData.default with m_dirty := allDirty }

/-- Counterexample to C6 as stated: a record with `dirtyMask = allDirtyMask`
but light type `Unknown` is not left unchanged by the legacy-call merge —
its light type is resolved to `Sphere` by a Point call. -/
theorem merge_fully_defined_counterexample :
    c6CTarget.m_dirty = allDirty ∧
    c6CTarget.m_lightType = LightType.Unknown ∧
    (LightData.mergeD3D9 xxh0 sh0 cos0 opts0 calc0 c6CTarget c6Light).m_lightType =
      LightType.Sphere ∧
    (LightData.mergeD3D9 xxh0 sh0 cos0 opts0 calc0 c6CTarget c6Light).m_lightType ≠
      c6CTarget.m_lightType := by
  refine ⟨rfl, rfl, ?_, ?_⟩ <;> decide

/-- C5 (amended): the negative-scale flip branches of `extractTransform`
exist but can never execute, because the extracted scale factors are
pre-normalization vector lengths and therefore never negative; the extraction
always agrees with the computation that omits the flip step. -/
theorem extractTransform_flip_never_fires (ld : LightData)
    (m? : Option GfMatrix4f) :
    ld.extractTransform m? = ld.extractTransformNoFlip m? := by
  cases m? with
  | none => rfl
  | some m =>
    simp [LightData.extractTransform, LightData.extractTransformNoFlip,
      gfNormalize, ratSqrt_not_lt_zero]

/-- The transform of C5's example: x scale -2 (first row (-2, 0, 0)),
identity elsewhere. -/
def c5Matrix : GfMatrix4f where
  row0 := ⟨-2, 0, 0⟩
  row1 := ⟨0, 1, 0⟩
  row2 := ⟨0, 0, 1⟩
  row3 := ⟨0, 0, 0⟩

/-- A working record with a concrete (Rect) light type, used as the receiver
of the transform extractions in the C5 counterexample. -/
def c5Record : LightData :=
  { LightData.default with m_lightType := LightType.Rect }

/-- Counterexample to C5 as stated: the transform whose x scale is -2 does
yield sanitized xScale = 2, but its x axis equals the unflipped computation's
axis (the normalized row, pointing along negative x) — it is *not* negated
relative to the unflipped computation. -/
theorem extractTransform_negative_scale_counterexample :
    (c5Record.extractTransform (some c5Matrix)).m_xScale = 2 ∧
    (c5Record.extractTransform (some c5Matrix)).m_xAxis = ⟨-1, 0, 0⟩ ∧
    (c5Record.extractTransformNoFlip (some c5Matrix)).m_xAxis = ⟨-1, 0, 0⟩ ∧
    (c5Record.extractTransform (some c5Matrix)).m_xAxis ≠
      Vector3.neg (c5Record.extractTransformNoFlip (some c5Matrix)).m_xAxis := by
  refine ⟨?_, ?_, ?_, ?_⟩ <;>
    norm_num [LightData.extractTransform, LightData.extractTransformNoFlip,
      c5Record, c5Matrix, LightData.default, gfNormalize, Vector3.dot,
      Vector3.smul, Vector3.neg, Vector3.zero, Vector3.mk.injEq,
      sanitizeSingularity, gfMinVectorLength, ratSqrt_four]

/-- The failing transform for C4: no column of its upper 3x3 block is the
zero vector (so the creation guard accepts it), but its first *row* — from
which `extractTransform` derives the x scale — is zero. -/
def c4Matrix : GfMatrix4f where
  row0 := ⟨0, 0, 0⟩
  row1 := ⟨3, 4, 0⟩
  row2 := ⟨0, 3, 4⟩
  row3 := ⟨0, 0, 0⟩

/-- A working record with light type Sphere, the receiver of the C4
extraction. -/
def c4Record : LightData :=
  { LightData.default with m_lightType := LightType.Sphere }

/-- C4 evaluated at the failing input: the creation guard accepts
`c4Matrix` (no zero scale column), yet `extractTransform` produces
`m_xScale = 0`, so the end-of-function assertion (unit axes and strictly
positive scales) does not hold — the assert can fire for an accepted
transform. -/
theorem extractTransform_assert_can_fire :
    usdTransformAccepted c4Matrix = true ∧
    (c4Record.extractTransform (some c4Matrix)).m_xScale = 0 ∧
    ¬ extractAssertHolds (c4Record.extractTransform (some c4Matrix)) := by
  have hscale : (c4Record.extractTransform (some c4Matrix)).m_xScale = 0 := by
    norm_num [LightData.extractTransform, c4Record, c4Matrix,
      LightData.default, gfNormalize, Vector3.dot, gfMinVectorLength,
      ratSqrt_zero]
  refine ⟨?_, hscale, fun h => ?_⟩
  · norm_num [usdTransformAccepted, c4Matrix, Vector3.zero, Vector3.mk.injEq]
  · have hx := h.2.2.2.1
    rw [hscale] at hx
    exact lt_irrefl 0 hx

/-- C8: `tryCreate(const D3DLIGHT9&)` fails (logs an error and returns no
value) exactly when the call's type tag lies outside the supported range
Point..Directional, and returns a record for every tag inside the range. -/
theorem tryCreate_rejects_invalid_type (xxh : HashBuf → Nat → Nat)
    (sh : RtLightShaping → Nat) (cosF : ℚ → ℚ) (opts : ConversionOptions)
    (calcI : D3DLIGHT9 → ℚ → ℚ) (light : D3DLIGHT9) :
    ((light.type < D3DLIGHT_POINT ∨ D3DLIGHT_DIRECTIONAL < light.type) →
      tryCreateD3D9 xxh sh cosF opts calcI light = none ∧
      tryCreateLogsError light = true) ∧
    (D3DLIGHT_POINT ≤ light.type → light.type ≤ D3DLIGHT_DIRECTIONAL →
      (tryCreateD3D9 xxh sh cosF opts calcI light).isSome = true ∧
      tryCreateLogsError light = false) := by
  constructor
  · intro h
    constructor
    · simp [tryCreateD3D9, h]
    · simp [tryCreateLogsError, h]
  · intro h1 h2
    have h : ¬ (light.type < D3DLIGHT_POINT ∨ D3DLIGHT_DIRECTIONAL < light.type) := by
      simp only [D3DLIGHT_POINT, D3DLIGHT_DIRECTIONAL] at h1 h2 ⊢
      omega
    constructor
    · simp only [tryCreateD3D9, if_neg h]
      split <;> rfl
    · simp [tryCreateLogsError, h]

/-- A legacy call with the out-of-range type tag 0 for the C8 witness. -/
def c8BadLight : D3DLIGHT9 where
  type := 0
  diffuse := ⟨1, 1, 1⟩
  position := Vector3.zero
  direction := Vector3.zero
  range := 0
  falloff := 0
  theta := 0
  phi := 0

/-- A legacy Point call (type tag 1) for the C8 witness. -/
def c8GoodLight : D3DLIGHT9 where
  type := D3DLIGHT_POINT
  diffuse := ⟨1, 1, 1⟩
  position := Vector3.zero
  direction := Vector3.zero
  range := 0
  falloff := 0
  theta := 0
  phi := 0

/-- Witness for C8: the type-0 call is rejected with an error logged, and
the Point call yields a record. -/
theorem tryCreate_rejects_invalid_type_witness :
    (tryCreateD3D9 xxh0 sh0 cos0 opts0 calc0 c8BadLight = none ∧
      tryCreateLogsError c8BadLight = true) ∧
    ((tryCreateD3D9 xxh0 sh0 cos0 opts0 calc0 c8GoodLight).isSome = true ∧
      tryCreateLogsError c8GoodLight = false) :=
  ⟨(tryCreate_rejects_invalid_type xxh0 sh0 cos0 opts0 calc0 c8BadLight).1
      (Or.inl (by decide)),
   (tryCreate_rejects_invalid_type xxh0 sh0 cos0 opts0 calc0 c8GoodLight).2
      (by decide) (by decide)⟩

/-- C9: merging a legacy call whose type tag is out of range skips the
per-field merge entirely (`tryCreate` yields no record), yet the type switch
still runs: a target with `Unknown` light type is resolved to `Sphere` (the
switch's default case falls through to the Point/Spot branch), and a target
with a concrete type is returned untouched. -/
theorem merge_invalid_type_resolves_sphere (xxh : HashBuf → Nat → Nat)
    (sh : RtLightShaping → Nat) (cosF : ℚ → ℚ) (opts : ConversionOptions)
    (calcI : D3DLIGHT9 → ℚ → ℚ) (t : LightData) (light : D3DLIGHT9)
    (h : light.type < D3DLIGHT_POINT ∨ D3DLIGHT_DIRECTIONAL < light.type) :
    LightData.mergeD3D9 xxh sh cosF opts calcI t light =
      (if t.m_lightType = LightType.Unknown then
        { t with m_lightType := LightType.Sphere }
      else t) := by
  have hnone : tryCreateD3D9 xxh sh cosF opts calcI light = none := by
    simp [tryCreateD3D9, h]
  have h3 : light.type ≠ D3DLIGHT_DIRECTIONAL := by
    simp only [D3DLIGHT_POINT, D3DLIGHT_DIRECTIONAL] at h ⊢
    omega
  have hfields :
      LightData.mergeD3D9Fields xxh sh cosF opts calcI t light = t := by
    unfold LightData.mergeD3D9Fields
    rw [hnone]
    split <;> rfl
  simp [LightData.mergeD3D9, hfields, h3]

/-- A legacy call with the out-of-range type tag 5 for the C9 witness. -/
def c9Light : D3DLIGHT9 where
  type := 5
  diffuse := ⟨1, 1, 1⟩
  position := Vector3.zero
  direction := Vector3.zero
  range := 0
  falloff := 0
  theta := 0
  phi := 0

/-- Witness for C9: merging the type-5 call into a default (Unknown-typed)
record resolves the type to Sphere while everything else is untouched. -/
theorem merge_invalid_type_resolves_sphere_witness :
    LightData.mergeD3D9 xxh0 sh0 cos0 opts0 calc0 LightData.default c9Light =
      (if LightData.default.m_lightType = LightType.Unknown then
        { LightData.default with m_lightType := LightType.Sphere }
      else LightData.default) :=
  merge_invalid_type_resolves_sphere xxh0 sh0 cos0 opts0 calc0
    LightData.default c9Light (Or.inr (by decide))

/-- A legacy Point call whose diffuse colour is all zero, so its peak
channel — the divisor of the colour normalization — is zero. -/
def zeroDiffusePointLight : D3DLIGHT9 where
  type := D3DLIGHT_POINT
  diffuse := ⟨0, 0, 0⟩
  position := ⟨1, 2, 3⟩
  direction := Vector3.zero
  range := 0
  falloff := 0
  theta := 0
  phi := 0

/-- C10: `createFromPointSpot` divides the diffuse colour componentwise by
its peak channel with no zero guard: whenever the peak channel is strictly
positive the resulting colour is the diffuse colour divided by the peak (so
its largest component is 1), while the all-zero-diffuse Point call is still
accepted by `tryCreate` even though the divisor it feeds into the colour
computation is zero. -/
theorem color_normalized_by_peak_no_zero_guard (xxh : HashBuf → Nat → Nat)
    (sh : RtLightShaping → Nat) (cosF : ℚ → ℚ) (opts : ConversionOptions)
    (calcI : D3DLIGHT9 → ℚ → ℚ) (light : D3DLIGHT9) :
    (0 < peakDiffuse light →
      (createFromPointSpot xxh sh cosF opts calcI light).m_Color =
        ⟨light.diffuse.r / peakDiffuse light,
         light.diffuse.g / peakDiffuse light,
         light.diffuse.b / peakDiffuse light⟩ ∧
      max (createFromPointSpot xxh sh cosF opts calcI light).m_Color.x
        (max (createFromPointSpot xxh sh cosF opts calcI light).m_Color.y
          (createFromPointSpot xxh sh cosF opts calcI light).m_Color.z) = 1) ∧
    ((tryCreateD3D9 xxh sh cosF opts calcI zeroDiffusePointLight).isSome = true ∧
      peakDiffuse zeroDiffusePointLight = 0) := by
  have hcolor : (createFromPointSpot xxh sh cosF opts calcI light).m_Color =
      ⟨light.diffuse.r / peakDiffuse light,
       light.diffuse.g / peakDiffuse light,
       light.diffuse.b / peakDiffuse light⟩ := by
    by_cases h2 : light.type = D3DLIGHT_SPOT <;>
      simp [createFromPointSpot, h2]
  refine ⟨fun hp => ⟨hcolor, ?_⟩, ?_, ?_⟩
  · rw [hcolor]
    show max (light.diffuse.r / peakDiffuse light)
        (max (light.diffuse.g / peakDiffuse light)
          (light.diffuse.b / peakDiffuse light)) = 1
    rw [max_div_div_right hp.le, max_div_div_right hp.le,
      show max light.diffuse.r (max light.diffuse.g light.diffuse.b) =
        peakDiffuse light from rfl]
    exact div_self (ne_of_gt hp)
  · rfl
  · norm_num [peakDiffuse, zeroDiffusePointLight]

/-- A legacy Point call with peak diffuse channel 2, for the C10 witness. -/
def c10Light : D3DLIGHT9 where
  type := D3DLIGHT_POINT
  diffuse := ⟨2, 1, 1⟩
  position := Vector3.zero
  direction := Vector3.zero
  range := 0
  falloff := 0
  theta := 0
  phi := 0

/-- Witness for C10 at a concrete call with strictly positive peak channel:
the colour is the diffuse divided by the peak and its largest component
is 1. -/
theorem color_normalized_by_peak_witness :
    0 < peakDiffuse c10Light ∧
    ((createFromPointSpot xxh0 sh0 cos0 opts0 calc0 c10Light).m_Color =
      ⟨c10Light.diffuse.r / peakDiffuse c10Light,
       c10Light.diffuse.g / peakDiffuse c10Light,
       c10Light.diffuse.b / peakDiffuse c10Light⟩ ∧
     max (createFromPointSpot xxh0 sh0 cos0 opts0 calc0 c10Light).m_Color.x
       (max (createFromPointSpot xxh0 sh0 cos0 opts0 calc0 c10Light).m_Color.y
         (createFromPointSpot xxh0 sh0 cos0 opts0 calc0 c10Light).m_Color.z) = 1) := by
  have hp : 0 < peakDiffuse c10Light := by
    norm_num [peakDiffuse, c10Light]
  exact ⟨hp,
    (color_normalized_by_peak_no_zero_guard xxh0 sh0 cos0 opts0 calc0
      c10Light).1 hp⟩

/-- Witness for C7 at a concrete record and call: the application of the
transition theorem at the default (Unknown-typed) record. -/
theorem lightType_transitions_unknown_to_concrete_witness :
    (LightData.default.mergeLD LightData.default).m_lightType =
      LightData.default.m_lightType ∧
    ((LightData.mergeD3D9 xxh0 sh0 cos0 opts0 calc0 LightData.default
        c6Light).m_lightType = LightData.default.m_lightType ∨
      (LightData.default.m_lightType = LightType.Unknown ∧
        (LightData.mergeD3D9 xxh0 sh0 cos0 opts0 calc0 LightData.default
          c6Light).m_lightType ≠ LightType.Unknown)) :=
  lightType_transitions_unknown_to_concrete xxh0 sh0 cos0 opts0 calc0
    LightData.default LightData.default c6Light

end DxvkRtx
